import Mathlib

/-!
# Verification of `mcp-remote-py` transport core

A shallow embedding, in Lean 4, of the transport abstraction layer of the
`mcp-remote-py` proxy (sources under `src/mcp_remote_py/`):

* `_should_fallback` and `RemoteTransport.send` from `remote_transport.py`
  (strategy-driven transport selector with 404/405 fallback);
* `_is_jsonrpc_message` and `iter_sse_events` from `sse_transport.py`
  (message validator and event-stream parser), together with
  `SseRemoteTransport`'s endpoint handling, send and close;
* `StreamableHttpRemoteTransport.send` / `close` from `http_transport.py`
  (retry loop with exponential backoff);
* the bounded drop-on-full queue callback `on_remote_message` from `proxy.py`.

Python values that matter to the checks (JSON scalars, exception objects)
are embedded as explicit inductive types; Python's `bool`-is-an-`int`
subtyping is preserved where the source relies on `isinstance`.
Asynchronous waits are embedded as oracles describing the outcome of the
wait (e.g. whether an endpoint event arrived within the timeout), and each
imperative routine becomes a pure function from a state plus oracles to a
result together with an explicit trace of its observable actions.
-/

namespace McpRemote

/-! ## Python string helpers

Faithful models of the Python string operations the source uses:
`in` (substring containment), `str.strip` / `lstrip` (whitespace, ASCII
subset), `str.rstrip("\r\n")`, `str.startswith`, slicing `s[n:]`. -/

/-- Python whitespace test (`str.strip` default set, ASCII part):
space, tab, newline, carriage return, vertical tab, form feed. -/
def pyIsSpace (c : Char) : Bool :=
  c = ' ' || c = '\t' || c = '\n' || c = '\r' ||
  c = Char.ofNat 11 || c = Char.ofNat 12

/-- Does `p` occur as a prefix of `s` (on character lists)? -/
def listHasPrefix : List Char → List Char → Bool
  | [], _ => true
  | _ :: _, [] => false
  | p :: ps, c :: cs => p = c && listHasPrefix ps cs

/-- Does `pat` occur as a contiguous subsequence of `s`? -/
def listContainsSeq (pat : List Char) : List Char → Bool
  | [] => listHasPrefix pat []
  | c :: cs => listHasPrefix pat (c :: cs) || listContainsSeq pat cs

/-- Python `pat in s` for strings. -/
def pyIn (pat s : String) : Bool :=
  listContainsSeq pat.toList s.toList

/-- Python `s.startswith(pat)`. -/
def strStartsWith (s pat : String) : Bool :=
  listHasPrefix pat.toList s.toList

/-- Python `s[n:]` (drop the first `n` characters). -/
def strDrop (s : String) (n : Nat) : String :=
  ⟨s.toList.drop n⟩

/-- Python `s.strip()` (both-sided whitespace strip). -/
def pyStrip (s : String) : String :=
  ⟨((s.toList.dropWhile pyIsSpace).reverse.dropWhile pyIsSpace).reverse⟩

/-- Python `s.lstrip()` (left whitespace strip). -/
def pyLstrip (s : String) : String :=
  ⟨s.toList.dropWhile pyIsSpace⟩

/-- Python `s.rstrip("\r\n")`: drop trailing CR and LF characters. -/
def pyRstripCrLf (s : String) : String :=
  ⟨(s.toList.reverse.dropWhile (fun c => c = '\r' || c = '\n')).reverse⟩

/-! ## Exceptions

The selector's fallback test (`remote_transport.py`, `_should_fallback`)
distinguishes `aiohttp.ClientResponseError` (inspected through its
`.status`) from every other exception (inspected through `str(exc)`).
We embed an exception as either kind, carrying in both cases the string
`str(exc)` would produce. -/

/-- A Python exception value, as far as `_should_fallback` can observe it:
either an `aiohttp.ClientResponseError` with its HTTP `status` (plus its
textual rendering `str(exc)`), or any other exception with its textual
rendering. -/
inductive PyExc where
  | clientResponseError (status : Int) (text : String)
  | other (text : String)
  deriving DecidableEq, Repr

/-- Python `str(exc)`. -/
def PyExc.text : PyExc → String
  | .clientResponseError _ t => t
  | .other t => t

/-- Embedding of `remote_transport._should_fallback`: a `ClientResponseError` is
fallback-eligible iff its status is 404 or 405; any other exception is
eligible iff its textual rendering contains one of the markers
`" 404"`, `"Not Found"`, `" 405"`, `"Method Not Allowed"`,
`"HTTP 404"`, `"HTTP 405"`. -/
def should_fallback (exc : PyExc) : Bool :=
  match exc with
  | .clientResponseError status _ => status = 404 || status = 405
  | .other msg =>
      pyIn " 404" msg || pyIn "Not Found" msg || pyIn " 405" msg ||
      pyIn "Method Not Allowed" msg || pyIn "HTTP 404" msg || pyIn "HTTP 405" msg

/-- The claim's wording of fallback eligibility, taken literally: the
exception reports an HTTP 404/405 status, OR its textual description
contains a 404/405 marker, OR contains "Not Found"/"Method Not Allowed"
— the disjunction applying to every exception uniformly. -/
def shouldFallbackClaim (exc : PyExc) : Bool :=
  (match exc with
   | .clientResponseError status _ => status = 404 || status = 405
   | .other _ => false) ||
  pyIn " 404" exc.text || pyIn "HTTP 404" exc.text ||
  pyIn " 405" exc.text || pyIn "HTTP 405" exc.text ||
  pyIn "Not Found" exc.text || pyIn "Method Not Allowed" exc.text

/-! ## JSON values and the message validator

`sse_transport._is_jsonrpc_message` operates on the result of
`json.loads`: `null`/`bool`/`int`/`float`/`str`/`list`/`dict`. Python
`bool` is a subclass of `int`, so `isinstance(x, (str, int))` accepts
`True`/`False`; the embedding keeps the JSON types separate and models
the `isinstance` checks explicitly. Objects are association lists (the
decoder produces unique keys; lookup takes the first binding). -/

/-- A decoded JSON value (Python-side after `json.loads`). Floats carry
no payload: no check in the source distinguishes two floats. -/
inductive Json where
  | null
  | bool (b : Bool)
  | int (n : Int)
  | float
  | str (s : String)
  | arr (elems : List Json)
  | obj (fields : List (String × Json))

/-- Python `key in obj` for a decoded JSON object. -/
def jsonHasKey (fields : List (String × Json)) (k : String) : Bool :=
  fields.any (fun p => p.1 = k)

/-- Python `obj.get(key)` for a decoded JSON object (`none` = Python `None`
for an absent key). -/
def jsonGet (fields : List (String × Json)) (k : String) : Option Json :=
  (fields.find? (fun p => p.1 = k)).map (fun p => p.2)

/-- Python `obj.get("jsonrpc") == "2.0"`: only the string `"2.0"` compares
equal to `"2.0"`. -/
def isTag20 (v : Option Json) : Bool :=
  match v with
  | some (.str s) => s = "2.0"
  | _ => false

/-- Python `isinstance(x, str)` on a decoded value (`none` = absent/`None`). -/
def isPyStr (v : Option Json) : Bool :=
  match v with
  | some (.str _) => true
  | _ => false

/-- Python `isinstance(x, (str, int))` on a decoded value. Note that
Python `bool` is a subclass of `int`, so booleans pass. -/
def isPyStrOrInt (v : Option Json) : Bool :=
  match v with
  | some (.str _) => true
  | some (.int _) => true
  | some (.bool _) => true
  | _ => false

/-- Embedding of `sse_transport._is_jsonrpc_message`, line for line: reject non-dicts;
reject unless `jsonrpc == "2.0"`; if a `method` key is present the value
is a message iff `method` is a string; otherwise require an `id` key whose
value passes `isinstance(_, (str, int))` and at least one of
`result`/`error`. -/
def is_jsonrpc_message (j : Json) : Bool :=
  match j with
  | .obj fields =>
      if !isTag20 (jsonGet fields "jsonrpc") then false
      else if jsonHasKey fields "method" then isPyStr (jsonGet fields "method")
      else if !jsonHasKey fields "id" then false
      else if !isPyStrOrInt (jsonGet fields "id") then false
      else jsonHasKey fields "result" || jsonHasKey fields "error"
  | _ => false

/-- The claim's validator, taken literally: an object with
`jsonrpc == "2.0"` that either (a) carries a string-typed `method`, or
(b) carries an `id` of string or integer JSON type together with at least
one of `result`/`error`. -/
def isMessageClaim (j : Json) : Bool :=
  match j with
  | .obj fields =>
      isTag20 (jsonGet fields "jsonrpc") &&
      ((jsonHasKey fields "method" && isPyStr (jsonGet fields "method")) ||
       ((match jsonGet fields "id" with
         | some (.str _) => true
         | some (.int _) => true
         | _ => false) &&
        (jsonHasKey fields "result" || jsonHasKey fields "error")))
  | _ => false

/-- The amended validator, phrased declaratively: an object with
`jsonrpc == "2.0"` such that, when a `method` key is present, the value is
a message exactly when `method` is string-typed (regardless of any
response-shaped fields); and when no `method` key is present, exactly when
it carries an `id` of string, integer or boolean type together with at
least one of `result`/`error`. -/
def isMessageAmended (j : Json) : Bool :=
  match j with
  | .obj fields =>
      isTag20 (jsonGet fields "jsonrpc") &&
      (if jsonHasKey fields "method" then isPyStr (jsonGet fields "method")
       else isPyStrOrInt (jsonGet fields "id") &&
            (jsonHasKey fields "result" || jsonHasKey fields "error"))
  | _ => false

/-! ## PendingQueue (`proxy.py`)

`run_proxy` creates `asyncio.Queue(maxsize=256)`; the remote-message
callback `on_remote_message` calls `put_nowait` and, on `QueueFull`, drops
the incoming message with a log line. The queue is a FIFO list, oldest
first. -/

/-- Capacity of the remote→local queue (`asyncio.Queue(maxsize=256)`). -/
def QUEUE_MAXSIZE : Nat := 256

/-- Embedding of `queue.put_nowait(msg)`: appends when below capacity (`true` =
accepted), raises `QueueFull` otherwise (`false`), never blocking. -/
def put_nowait (q : List Json) (msg : Json) : List Json × Bool :=
  if q.length < QUEUE_MAXSIZE then (q ++ [msg], true) else (q, false)

/-- Embedding of `proxy.on_remote_message`: non-blocking enqueue, dropping the incoming
message when the queue is full. -/
def on_remote_message (q : List Json) (msg : Json) : List Json :=
  (put_nowait q msg).1

/-- One orchestrator-side queue operation: the remote-message callback
enqueues, the remote→local pump dequeues from the front. -/
inductive QueueOp where
  | enqueue (msg : Json)
  | dequeue

/-- Apply one queue operation. -/
def queueStep (q : List Json) : QueueOp → List Json
  | .enqueue msg => on_remote_message q msg
  | .dequeue => q.tail

/-- Run a sequence of queue operations from a starting queue. -/
def queueRun (q : List Json) (ops : List QueueOp) : List Json :=
  ops.foldl queueStep q

/-! ## Event-stream parser (`sse_transport.iter_sse_events`)

The source reads raw lines from the response stream until `readline`
returns the empty read (end of stream), decodes each, strips trailing
CR/LF, and folds them through the SSE line rules. We embed the stream as
the list of decoded raw lines (end of list = end of stream) and the lazy
generator as the list of events it yields. -/

/-- A parsed server-sent event: name plus accumulated data payload
(`sse_transport.SseEvent`). -/
structure SseEvent where
  event : String
  data : String
  deriving DecidableEq, Repr

/-- The flush step of the parser: emit one event when at least one data
fragment was accumulated, nothing otherwise. -/
def sseFlush (name : String) (dataLines : List String) : List SseEvent :=
  if dataLines.isEmpty then [] else [⟨name, String.intercalate "\n" dataLines⟩]

/-- The loop body of `iter_sse_events`, carrying the current event name
and accumulated data fragments. Each raw line is stripped of trailing
CR/LF; a blank line flushes and resets; `:`-lines are comments;
`event:`-lines set the (stripped) name, empty defaulting to `"message"`;
`data:`-lines append the left-stripped remainder; anything else is
ignored. End of stream flushes any remaining fragments. -/
def iterSseGo (name : String) (dataLines : List String) : List String → List SseEvent
  | [] => sseFlush name dataLines
  | raw :: rest =>
      let line := pyRstripCrLf raw
      if line = "" then
        sseFlush name dataLines ++ iterSseGo "message" [] rest
      else if strStartsWith line ":" then
        iterSseGo name dataLines rest
      else if strStartsWith line "event:" then
        iterSseGo (let v := pyStrip (strDrop line 6); if v = "" then "message" else v)
          dataLines rest
      else if strStartsWith line "data:" then
        iterSseGo name (dataLines ++ [pyLstrip (strDrop line 5)]) rest
      else
        iterSseGo name dataLines rest

/-- Embedding of `sse_transport.iter_sse_events` on a whole stream of raw lines. -/
def iter_sse_events (lines : List String) : List SseEvent :=
  iterSseGo "message" [] lines

/-! Specification-side restatement of the parser, following the claim's
words: split the (CR/LF-stripped) lines into blank-line-delimited blocks,
fold each block's lines through the field rules, and emit one event per
block that accumulated at least one data fragment. Used only to be
compared against `iter_sse_events`. -/

/-- One line's effect on a block's (name, fragments) state, per the
claim: comments ignored, `event:` sets the stripped name (empty
defaulting to `"message"`), `data:` appends the left-stripped remainder,
any other line ignored. -/
def sseBlockStep (st : String × List String) (line : String) : String × List String :=
  if strStartsWith line ":" then st
  else if strStartsWith line "event:" then
    (let v := pyStrip (strDrop line 6); if v = "" then "message" else v, st.2)
  else if strStartsWith line "data:" then
    (st.1, st.2 ++ [pyLstrip (strDrop line 5)])
  else st

/-- The event a block produces when started from state `(name, acc)`:
one event iff the folded fragment list is nonempty, with payload the
fragments joined by newline. -/
def sseBlockEventFrom (name : String) (acc : List String) (block : List String) :
    Option SseEvent :=
  let st := block.foldl sseBlockStep (name, acc)
  if st.2.isEmpty then none else some ⟨st.1, String.intercalate "\n" st.2⟩

/-- The event a blank-line-delimited block produces (fresh state). -/
def sseBlockEvent (block : List String) : Option SseEvent :=
  sseBlockEventFrom "message" [] block

/-- Split a line sequence into blank-line-delimited blocks; the trailing
block (after the last blank line, possibly empty) is kept so that an
end-of-stream flush can be expressed. Always returns at least one block. -/
def sseBlocks : List String → List (List String)
  | [] => [[]]
  | l :: rest =>
      let bs := sseBlocks rest
      if l = "" then [] :: bs
      else (l :: bs.headD []) :: bs.tail

/-- The claim's description of the parser: one event per
blank-line-delimited block with at least one data fragment, payloads
joined by newline, plus the final end-of-stream flush. -/
def sseEventsSpec (lines : List String) : List SseEvent :=
  (sseBlocks (lines.map pyRstripCrLf)).filterMap sseBlockEvent

/-- The head-block event and remaining events produced by a line
sequence, starting the head block's fold from a carried state. -/
def specFrom (name : String) (acc : List String) (lines : List String) :
    List SseEvent :=
  (sseBlockEventFrom name acc
      ((sseBlocks (lines.map pyRstripCrLf)).headD [])).toList ++
    ((sseBlocks (lines.map pyRstripCrLf)).tail).filterMap sseBlockEvent

/-! ## URLs

`sse_transport._set_endpoint` resolves the endpoint value with
`urllib.parse.urljoin` and compares `(scheme, netloc)` components from
`urllib.parse.urlparse`. The two stdlib functions (external to the
repository) are modelled below: `urlparse` splits a URL into scheme,
network location (authority, as in the HTTP `Host` header) and the rest;
`urljoin` performs RFC 3986-style reference resolution for the absolute,
network-path, absolute-path and relative-path cases (without dot-segment
normalization, which no property here depends on). -/

/-- ASCII lowercasing of one character (`str.lower` on scheme text). -/
def charLower (c : Char) : Char :=
  if 'A' ≤ c && c ≤ 'Z' then Char.ofNat (c.toNat + 32) else c

/-- Characters allowed in a URL scheme after the initial letter. -/
def isSchemeChar (c : Char) : Bool :=
  c.isAlphanum || c = '+' || c = '-' || c = '.'

/-- Split a character list at the first `':'`, when present. -/
def splitAtColon : List Char → Option (List Char × List Char)
  | [] => none
  | c :: cs =>
      if c = ':' then some ([], cs)
      else match splitAtColon cs with
        | some (pre, post) => some (c :: pre, post)
        | none => none

/-- The parsed components of a URL: scheme (lowercased), network
location, and the remainder (path, query and fragment together). -/
structure UrlParts where
  scheme : String
  netloc : String
  rest : String
  deriving DecidableEq, Repr

/-- Model of `urllib.parse.urlparse`, restricted to the components the
source inspects (`scheme`, `netloc`) plus the remainder. -/
def urlparse (u : String) : UrlParts :=
  let (scheme, afterScheme) :=
    match splitAtColon u.toList with
    | some (pre, post) =>
        if pre ≠ [] && (pre.headD 'a').isAlpha && pre.all isSchemeChar then
          (⟨pre.map charLower⟩, post)
        else ("", u.toList)
    | none => ("", u.toList)
  if listHasPrefix ['/', '/'] afterScheme then
    let r := afterScheme.drop 2
    let netloc := r.takeWhile (fun c => c ≠ '/' && c ≠ '?' && c ≠ '#')
    let rest := r.dropWhile (fun c => c ≠ '/' && c ≠ '?' && c ≠ '#')
    ⟨scheme, ⟨netloc⟩, ⟨rest⟩⟩
  else
    ⟨scheme, "", ⟨afterScheme⟩⟩

/-- The directory part of a path: everything up to and including the last
`'/'`; `"/"` when the path has no slash (authority present, path empty). -/
def pathDir (path : String) : String :=
  let kept := (path.toList.reverse.dropWhile (fun c => c ≠ '/')).reverse
  if kept = [] then "/" else ⟨kept⟩

/-- Model of `urllib.parse.urljoin`: an empty reference keeps the base; a
reference with its own scheme is absolute; `//`-references keep only the
base scheme; `/`-references keep scheme and authority; other references
are resolved against the directory of the base path. -/
def urljoin (base rel : String) : String :=
  if rel = "" then base
  else
    let bp := urlparse base
    let rp := urlparse rel
    if rp.scheme ≠ "" then rel
    else if strStartsWith rel "//" then bp.scheme ++ ":" ++ rel
    else if strStartsWith rel "/" then bp.scheme ++ "://" ++ bp.netloc ++ rel
    else bp.scheme ++ "://" ++ bp.netloc ++ pathDir bp.rest ++ rel

/-! ## Event-stream wire transport state (`sse_transport.SseRemoteTransport`)

The transport's mutable attributes become a state record; the `asyncio`
events `_started` / `_endpoint_ready` become booleans ("has been set");
waits on them are embedded as oracles for their outcome. -/

/-- The 2-second endpoint-negotiation timeout
(`SseRemoteTransport._endpoint_wait_timeout_s = 2.0`). -/
def endpoint_wait_timeout_s : ℚ := 2

/-- State of an `SseRemoteTransport` instance. `respOpen` / `sessionOpen`
model `_resp is not None` / `_session is not None`. -/
structure SseState where
  baseUrl : String
  closed : Bool
  started : Bool
  endpointReady : Bool
  endpoint : Option String
  respOpen : Bool
  sessionOpen : Bool
  hasOnclose : Bool
  oncloseCalled : Bool
  deriving DecidableEq, Repr

/-- Embedding of `SseRemoteTransport._set_endpoint`: resolve the event payload against
the base URL, require equal `(scheme, netloc)` with the base — otherwise
raise `Endpoint origin mismatch` without storing anything — then store the
resolved URL and mark the endpoint resolved. -/
def sse_set_endpoint (st : SseState) (value : String) : Except String SseState :=
  let resolved := urljoin st.baseUrl value
  let b := urlparse st.baseUrl
  let e := urlparse resolved
  if b.scheme ≠ e.scheme || b.netloc ≠ e.netloc then
    .error ("Endpoint origin mismatch: " ++ resolved)
  else
    .ok { st with endpoint := some resolved, endpointReady := true }

/-- Embedding of `SseRemoteTransport._ensure_endpoint`. The oracle `arrival` describes
the 2-second wait on `_endpoint_ready` when the flag is not yet set:
`some ep` means the reader task ran `_set_endpoint` storing `ep` (and set
the flag) within the timeout; `none` means the wait timed out, in which
case the endpoint defaults to the base URL. -/
def sse_ensure_endpoint (st : SseState) (arrival : Option String) : SseState :=
  if st.endpointReady then st
  else
    match arrival with
    | some ep => { st with endpoint := some ep, endpointReady := true }
    | none => { st with endpoint := some st.baseUrl, endpointReady := true }

/-- Outcome of `SseRemoteTransport.send`: the POST was issued to `target`
(with a 2xx response, drained), or an exception was raised with the given
message, or the call is suspended awaiting `_started`. -/
inductive SseSendResult where
  | posted (target : String)
  | failed (msg : String)
  | awaitingStart
  deriving DecidableEq, Repr

/-- Embedding of `SseRemoteTransport.send`: fail when closed; suspend until the stream
has opened; fail when the session is gone; ensure endpoint resolution
(oracle `arrival` as in `sse_ensure_endpoint`); fail when the endpoint is
Python-falsy; POST to the endpoint, a non-2xx status (oracle `postStatus`
with response body `postBody`) raising `POST failed`. -/
def sse_send (st : SseState) (arrival : Option String) (postStatus : Int)
    (postBody : String) : SseSendResult × SseState :=
  if st.closed then (.failed "Transport is closed", st)
  else if !st.started then (.awaitingStart, st)
  else if !st.sessionOpen then (.failed "Transport not started", st)
  else
    let st' := sse_ensure_endpoint st arrival
    match st'.endpoint with
    | none => (.failed "Not connected (no endpoint)", st')
    | some ep =>
        if ep = "" then (.failed "Not connected (no endpoint)", st')
        else if postStatus < 200 || 300 ≤ postStatus then
          (.failed ("POST failed (HTTP " ++ toString postStatus ++ "): " ++ postBody), st')
        else (.posted ep, st')

/-- Embedding of `SseRemoteTransport.close`: a second call returns at once; the first
sets `closed`, releases both waiters, closes response and session, and
invokes `onclose` at most once. Returns the new state and the number of
`onclose` invocations this call performed. -/
def sse_close (st : SseState) : SseState × Nat :=
  if st.closed then (st, 0)
  else
    let st' : SseState :=
      { st with closed := true, started := true, endpointReady := true,
                respOpen := false, sessionOpen := false }
    if st'.hasOnclose && !st'.oncloseCalled then
      ({ st' with oncloseCalled := true }, 1)
    else (st', 0)

/-- Total `onclose` invocations over `n` repeated `close()` calls. -/
def sseCloseN (st : SseState) : Nat → SseState × Nat
  | 0 => (st, 0)
  | n + 1 =>
      let (st', k) := sse_close st
      let (st'', m) := sseCloseN st' n
      (st'', k + m)

/-! ## Streaming-request wire transport (`http_transport.StreamableHttpRemoteTransport`) -/

/-- Maximum number of POST attempts per send (`http_transport.MAX_RETRIES`). -/
def MAX_RETRIES : Nat := 3

/-- Base backoff delay in seconds (`http_transport.RETRY_DELAY_BASE`). -/
def RETRY_DELAY_BASE : ℚ := 1

/-- State of a `StreamableHttpRemoteTransport` instance. -/
structure HttpState where
  closed : Bool
  closedEvent : Bool
  started : Bool
  sessionOpen : Bool
  hasOnclose : Bool
  oncloseCalled : Bool
  deriving DecidableEq, Repr

/-- Outcome of `StreamableHttpRemoteTransport.start`: raises
`already started` when a session exists; otherwise opens the pool,
signals readiness, and waits on `_closed_event` — completing at once when
that event is already set, staying suspended otherwise. -/
inductive HttpStartResult where
  | alreadyStarted
  | runningUntilClose
  | completed
  deriving DecidableEq, Repr

/-- Embedding of `StreamableHttpRemoteTransport.start`. -/
def http_start (st : HttpState) : HttpStartResult × HttpState :=
  if st.sessionOpen then (.alreadyStarted, st)
  else
    let st' := { st with sessionOpen := true, started := true }
    if st'.closedEvent then (.completed, st') else (.runningUntilClose, st')

/-- What one POST attempt inside the send loop does, as the retry logic
classifies it: success (2xx, body drained); an exception of the retryable
class (`aiohttp.ClientError`, `asyncio.TimeoutError`, `OSError` —
connection-level failure, timeout, low-level I/O); or any other exception
(including the `RuntimeError` raised on a non-2xx status). -/
inductive AttemptOutcome where
  | success
  | retryable (e : PyExc)
  | fatal (e : PyExc)
  deriving DecidableEq, Repr

/-- An observable action of the send loop: a POST attempt (numbered from
0), a backoff sleep of the given seconds, or discarding and recreating
the connection pool before the next attempt. -/
inductive HttpEvent where
  | post (attempt : Nat)
  | sleep (secs : ℚ)
  | recreatePool
  deriving DecidableEq, Repr

/-- Result of `StreamableHttpRemoteTransport.send`. -/
inductive HttpSendResult where
  | ok
  | err (e : PyExc)
  | awaitingStart
  deriving DecidableEq, Repr

/-- A send's result together with its observable action trace and the
argument passed to the error callback, if it was invoked. -/
structure HttpSendTrace where
  result : HttpSendResult
  events : List HttpEvent
  errorCb : Option PyExc
  deriving DecidableEq, Repr

/-- The code after the retry loop: `if last_error:` report it to the
error callback and raise it. -/
def httpSendFinish (last : Option PyExc) (evs : List HttpEvent) : HttpSendTrace :=
  match last with
  | some e => ⟨.err e, evs, some e⟩
  | none => ⟨.ok, evs, none⟩

/-- The retry loop of `StreamableHttpRemoteTransport.send`.
`o i` is the outcome of POST attempt `i`; `closedAt i` is the value of
`self._closed` at the moment attempt `i`'s retryable exception is caught
(the flag can be flipped by a concurrent `close()`). `remaining` counts
the loop iterations left in `range(MAX_RETRIES)`. A retryable failure
with attempts remaining sleeps `RETRY_DELAY_BASE * 2 ^ attempt`, discards
the pool (recreated by `_ensure_session` on the next attempt), and
retries; a retryable failure with `closed` set breaks at once; a fatal
failure breaks at once; exhaustion raises the last error. -/
def httpSendGo (o : Nat → AttemptOutcome) (closedAt : Nat → Bool) :
    Nat → Nat → Option PyExc → List HttpEvent → HttpSendTrace
  | _, 0, last, evs => httpSendFinish last evs
  | i, remaining + 1, _, evs =>
      let evs' := evs ++ [.post i]
      match o i with
      | .success => ⟨.ok, evs', none⟩
      | .fatal e => httpSendFinish (some e) evs'
      | .retryable e =>
          if closedAt i then httpSendFinish (some e) evs'
          else if i < MAX_RETRIES - 1 then
            httpSendGo o closedAt (i + 1) remaining (some e)
              (evs' ++ [.sleep (RETRY_DELAY_BASE * 2 ^ i), .recreatePool])
          else
            httpSendGo o closedAt (i + 1) remaining (some e) evs'

/-- Embedding of `StreamableHttpRemoteTransport.send`: raise at once when closed
(directly, not through the error callback); suspend until `_started`;
then run the retry loop. -/
def http_send (closed started : Bool) (o : Nat → AttemptOutcome)
    (closedAt : Nat → Bool) : HttpSendTrace :=
  if closed then ⟨.err (.other "Transport is closed"), [], none⟩
  else if !started then ⟨.awaitingStart, [], none⟩
  else httpSendGo o closedAt 0 MAX_RETRIES none []

/-- Embedding of `StreamableHttpRemoteTransport.close`: a second call returns at once;
the first sets `closed`, sets `_closed_event` and `_started`, closes the
pool, and invokes `onclose` at most once. -/
def http_close (st : HttpState) : HttpState × Nat :=
  if st.closed then (st, 0)
  else
    let st' : HttpState :=
      { st with closed := true, closedEvent := true, started := true,
                sessionOpen := false }
    if st'.hasOnclose && !st'.oncloseCalled then
      ({ st' with oncloseCalled := true }, 1)
    else (st', 0)

/-- Total `onclose` invocations over `n` repeated `close()` calls. -/
def httpCloseN (st : HttpState) : Nat → HttpState × Nat
  | 0 => (st, 0)
  | n + 1 =>
      let (st', k) := http_close st
      let (st'', m) := httpCloseN st' n
      (st'', k + m)

/-! ## Transport selector (`remote_transport.RemoteTransport`)

The selector owns one active transport (kind tag `sse`/`http`), a
strategy fixed at construction, and a non-reentrant switch lock. Sends
delegate to the active transport; the outcome of sending the current
message on a given kind is the oracle `sendRes`, and the outcome of
starting a freshly constructed transport during a switch is the oracle
`switchStartRes` (`none` = it became ready). -/

/-- A wire transport kind. -/
inductive Kind where
  | sse
  | http
  deriving DecidableEq, Repr

/-- The four transport strategies (`TransportStrategy`). -/
inductive Strategy where
  | sseOnly
  | httpOnly
  | sseFirst
  | httpFirst
  deriving DecidableEq, Repr

/-- Embedding of `RemoteTransport._can_fallback`: fallback is permitted exactly under
the two `-first` strategies. -/
def can_fallback : Strategy → Bool
  | .httpFirst => true
  | .sseFirst => true
  | _ => false

/-- The initial active kind chosen in `RemoteTransport.__init__`. -/
def initialKind : Strategy → Kind
  | .sseOnly => .sse
  | .sseFirst => .sse
  | _ => .http

/-- Embedding of `RemoteTransport._other_kind`. -/
def other_kind : Kind → Kind
  | .sse => .http
  | .http => .sse

/-- Selector state: the `closed` flag and the active transport's kind.
The strategy is immutable configuration. -/
structure SelSt where
  closed : Bool
  strategy : Strategy
  activeKind : Kind
  deriving DecidableEq, Repr

/-- Outcome of a selector operation: success, a raised exception, or a
deadlock — `_switch_to` re-entered on the non-reentrant
`asyncio.Lock` switch lock, which suspends forever. -/
inductive SelOutcome where
  | ok
  | err (e : PyExc)
  | deadlock
  deriving DecidableEq, Repr

/-- Embedding of `RemoteTransport._switch_to`, called from `send` (switch lock free):
return unchanged when closed or already on `newKind`; otherwise close the
old transport, await its runner, install a fresh transport of `newKind`
and start it (`startRes` = its start outcome). A fallback-eligible start
failure would recurse into `_switch_to` with the lock held — a deadlock.
Returns (outcome, new state, number of completed kind switches). -/
def switch_to (st : SelSt) (newKind : Kind) (startRes : Option PyExc) :
    SelOutcome × SelSt × Nat :=
  if st.closed then (.ok, st, 0)
  else if st.activeKind = newKind then (.ok, st, 0)
  else
    let st' := { st with activeKind := newKind }
    match startRes with
    | none => (.ok, st', 1)
    | some e =>
        if st'.closed then (.ok, st', 1)
        else if can_fallback st'.strategy && should_fallback e then (.deadlock, st', 1)
        else (.err e, st', 1)

/-- A selector send's result together with the sequence of
(kind, message) delegations it performed and the number of transport
switches. -/
structure SelSendTrace where
  outcome : SelOutcome
  sent : List (Kind × Json)
  switches : Nat
  finalKind : Kind

/-- Embedding of `RemoteTransport.send` for message `msg`: raise when closed (the
`start_background()` call on the next line is a no-op in this regime —
`run_proxy` launches the background runner before any send, so
`_runner_task` is already set); delegate to the active transport
(`sendRes k` = outcome of `transport.send(msg)` on kind `k`); on failure,
re-raise when closed, otherwise — when the strategy permits fallback and
the failure is fallback-eligible — switch to the other kind
(`switchStartRes` = the fresh transport's start outcome) and retry the
same message once on the new active transport, any exception of the retry
propagating; any other failure re-raises at once. -/
def selector_send (st : SelSt) (msg : Json) (sendRes : Kind → Option PyExc)
    (switchStartRes : Option PyExc) : SelSendTrace :=
  if st.closed then ⟨.err (.other "Transport is closed"), [], 0, st.activeKind⟩
  else
    match sendRes st.activeKind with
    | none => ⟨.ok, [(st.activeKind, msg)], 0, st.activeKind⟩
    | some e =>
        if st.closed then ⟨.err e, [(st.activeKind, msg)], 0, st.activeKind⟩
        else if can_fallback st.strategy && should_fallback e then
          match switch_to st (other_kind st.activeKind) switchStartRes with
          | (.ok, st', n) =>
              match sendRes st'.activeKind with
              | none => ⟨.ok, [(st.activeKind, msg), (st'.activeKind, msg)], n, st'.activeKind⟩
              | some e2 =>
                  ⟨.err e2, [(st.activeKind, msg), (st'.activeKind, msg)], n, st'.activeKind⟩
          | (.err e2, st', n) => ⟨.err e2, [(st.activeKind, msg)], n, st'.activeKind⟩
          | (.deadlock, st', n) => ⟨.deadlock, [(st.activeKind, msg)], n, st'.activeKind⟩
        else ⟨.err e, [(st.activeKind, msg)], 0, st.activeKind⟩

/-! ## Concrete fixtures (used to instantiate theorems with hypotheses) -/

/-- Recognizer for POST-attempt events in a send trace. -/
def isPostEv : HttpEvent → Bool
  | .post _ => true
  | _ => false

/-- A started, healthy streaming-request transport. -/
def httpExample : HttpState :=
  { closed := false, closedEvent := false, started := true,
    sessionOpen := true, hasOnclose := true, oncloseCalled := false }

/-- State of `httpExample` after one `close()`. -/
def httpExampleClosed : HttpState :=
  (http_close httpExample).1

/-- A started event-stream transport that has not yet resolved an
endpoint. -/
def sseExample : SseState :=
  { baseUrl := "http://h/sse", closed := false, started := true,
    endpointReady := false, endpoint := none, respOpen := true,
    sessionOpen := true, hasOnclose := true, oncloseCalled := false }

/-- Per-kind send outcomes where the request transport fails with a 404
response error and the event-stream transport succeeds. -/
def selRes404 : Kind → Option PyExc
  | .http => some (.clientResponseError 404 "404, message='Not Found'")
  | .sse => none

/-- Attempt outcomes where every POST fails with a connection reset. -/
def oAllRetry : Nat → AttemptOutcome :=
  fun _ => .retryable (.other "Connection reset by peer")

/-! ## Helper lemmas -/

/-- A key that is absent (per `jsonHasKey`) looks up to `none`. -/
lemma jsonGet_eq_none_of_hasKey_false (fields : List (String × Json)) (k : String)
    (h : jsonHasKey fields k = false) : jsonGet fields k = none := by
  induction fields with
  | nil => rfl
  | cons p rest ih =>
      simp only [jsonHasKey, List.any_cons, Bool.or_eq_false_iff] at h
      simp only [jsonGet, List.find?]
      rw [h.1]
      exact ih h.2

/-- Each strategy's fallback permission, by computation. -/
lemma can_fallback_values :
    can_fallback .sseOnly = false ∧ can_fallback .httpOnly = false ∧
    can_fallback .sseFirst = true ∧ can_fallback .httpFirst = true := by
  refine ⟨rfl, rfl, rfl, rfl⟩

/-- Switching away from a kind always changes it. -/
lemma other_kind_ne (k : Kind) : ¬ k = other_kind k := by
  cases k <;> simp [other_kind]

/-! ## Claim theorems -/

/-- C2, counterexample: the claim's eligibility condition, read as a
single disjunction over every exception, disagrees with
`_should_fallback` on an `aiohttp.ClientResponseError` whose status is
500 but whose textual description contains `"Not Found"`: the code
returns at the status test and never inspects the text, while the claim's
disjunction is satisfied by the text. -/
theorem c2_counterexample :
    should_fallback (.clientResponseError 500 "500, message='Not Found'") = false ∧
    shouldFallbackClaim (.clientResponseError 500 "500, message='Not Found'") = true := by
  decide

/-- C2 (amended): for an exception carrying an HTTP status
(`aiohttp.ClientResponseError`) the predicate returns true iff the status
is 404 or 405, its text being ignored; for every other exception it
returns true iff the textual description contains one of `" 404"`,
`"Not Found"`, `" 405"`, `"Method Not Allowed"`, `"HTTP 404"`,
`"HTTP 405"`. Moreover every exception the code accepts also satisfies
the original claim's disjunction (the disagreement is one-sided). -/
theorem should_fallback_characterization :
    (∀ (status : Int) (text : String),
        should_fallback (.clientResponseError status text) =
          (status = 404 || status = 405)) ∧
    (∀ text : String,
        should_fallback (.other text) =
          (pyIn " 404" text || pyIn "Not Found" text || pyIn " 405" text ||
           pyIn "Method Not Allowed" text || pyIn "HTTP 404" text ||
           pyIn "HTTP 405" text)) ∧
    (∀ exc : PyExc, should_fallback exc = true → shouldFallbackClaim exc = true) := by
  refine ⟨fun _ _ => rfl, fun _ => rfl, fun exc h => ?_⟩
  cases exc with
  | clientResponseError status text =>
      simp only [should_fallback] at h
      simp only [shouldFallbackClaim, h, Bool.true_or]
  | other text =>
      simp only [should_fallback] at h
      simp only [shouldFallbackClaim, PyExc.text, Bool.false_or]
      rcases Bool.or_eq_true_iff.mp h with h' | h6
      · rcases Bool.or_eq_true_iff.mp h' with h' | h5
        · rcases Bool.or_eq_true_iff.mp h' with h' | h4
          · rcases Bool.or_eq_true_iff.mp h' with h' | h3
            · rcases Bool.or_eq_true_iff.mp h' with h1 | h2
              · simp [h1]
              · simp [h2]
            · simp [h3]
          · simp [h4]
        · simp [h5]
      · simp [h6]

/-- C2 witness: a plain 404-marker exception accepted by the code also
satisfies the claim's disjunction. -/
theorem should_fallback_characterization_witness :
    shouldFallbackClaim (.other "HTTP POST failed (HTTP 404): gone") = true :=
  should_fallback_characterization.2.2
    (.other "HTTP POST failed (HTTP 404): gone") (by decide)

/-- C3, counterexample: the claim's validator, read as the disjunction
"(a) string-typed method, or (b) id of string/integer type with
result/error", accepts an object that carries a non-string `method`
together with a perfectly response-shaped `id`/`result` pair — but the
code tests the presence of the `method` key first and rejects the object
outright when its value is not a string. -/
theorem c3_counterexample :
    is_jsonrpc_message
      (.obj [("jsonrpc", .str "2.0"), ("method", .int 5),
             ("id", .int 1), ("result", .null)]) = false ∧
    isMessageClaim
      (.obj [("jsonrpc", .str "2.0"), ("method", .int 5),
             ("id", .int 1), ("result", .null)]) = true := by
  decide

/-- C3 (amended): the validator accepts exactly the objects carrying
`jsonrpc == "2.0"` such that, when a `method` key is present, `method` is
string-typed (any response-shaped fields notwithstanding), and, when no
`method` key is present, the object carries an `id` of string, integer or
boolean type (booleans pass Python's `isinstance(_, int)`) together with
at least one of `result`/`error`; every other value — in particular one
lacking `jsonrpc: "2.0"`, or a response with `id` missing or null, or
with neither `result` nor `error` — is rejected, and the validator is a
total function, so rejection never raises. -/
theorem is_jsonrpc_message_iff_amended (j : Json) :
    is_jsonrpc_message j = isMessageAmended j := by
  cases j with
  | obj fields =>
      simp only [is_jsonrpc_message, isMessageAmended]
      cases htag : isTag20 (jsonGet fields "jsonrpc") <;> simp
      cases hm : jsonHasKey fields "method" <;> simp
      cases hid : jsonHasKey fields "id"
      · simp [jsonGet_eq_none_of_hasKey_false fields "id" hid, isPyStrOrInt]
      · cases hty : isPyStrOrInt (jsonGet fields "id") <;> simp [hty]
  | null => rfl
  | bool b => rfl
  | int n => rfl
  | float => rfl
  | str s => rfl
  | arr elems => rfl

/-- C4: starting from any queue within capacity, any sequence of
callback enqueues and pump dequeues keeps the PendingQueue within its
capacity of 256; an enqueue on a full queue returns the queue unchanged
(the incoming newest message is the one dropped, every already-queued
message is retained in order), and an enqueue below capacity appends;
`put_nowait` returns in both cases rather than blocking (`false` = the
`QueueFull` drop path). -/
theorem pending_queue_bound (q : List Json) (msg : Json) (ops : List QueueOp)
    (hq : q.length ≤ QUEUE_MAXSIZE) :
    (queueRun q ops).length ≤ QUEUE_MAXSIZE ∧
    (q.length = QUEUE_MAXSIZE →
      on_remote_message q msg = q ∧ (put_nowait q msg).2 = false) ∧
    (q.length < QUEUE_MAXSIZE →
      on_remote_message q msg = q ++ [msg] ∧ (put_nowait q msg).2 = true) := by
  refine ⟨?_, ?_, ?_⟩
  · induction ops generalizing q with
    | nil => exact hq
    | cons op rest ih =>
        refine ih _ ?_
        cases op with
        | enqueue m =>
            simp only [queueStep, on_remote_message, put_nowait]
            by_cases h : q.length < QUEUE_MAXSIZE
            · simp [h]
              omega
            · simp [h]
              exact hq
        | dequeue =>
            simp only [queueStep]
            calc q.tail.length ≤ q.length := by
                  cases q <;> simp
              _ ≤ QUEUE_MAXSIZE := hq
  · intro hfull
    have h : ¬ q.length < QUEUE_MAXSIZE := by omega
    constructor
    · simp [on_remote_message, put_nowait, h]
    · simp [put_nowait, h]
  · intro hlt
    constructor
    · simp [on_remote_message, put_nowait, hlt]
    · simp [put_nowait, hlt]

/-- C4 witness: from the empty queue, enqueueing below capacity appends
and stays within capacity. -/
theorem pending_queue_bound_witness :
    (queueRun [] [.enqueue .null]).length ≤ QUEUE_MAXSIZE ∧
    on_remote_message [] .null = [.null] := by
  have h := pending_queue_bound [] Json.null [.enqueue .null] (by simp)
  exact ⟨h.1, (h.2.2 (by simp [QUEUE_MAXSIZE])).1⟩

/-- Splitting always yields at least one block. -/
lemma sseBlocks_ne_nil (l : List String) : sseBlocks l ≠ [] := by
  cases l with
  | nil => simp [sseBlocks]
  | cons x r =>
      simp only [sseBlocks]
      by_cases hx : x = "" <;> simp [hx]

/-- The spec's events of a block list, split into the head block's event
and the remaining blocks' events. -/
lemma filterMap_sseBlocks (l : List String) :
    (sseBlocks l).filterMap sseBlockEvent =
      (sseBlockEvent ((sseBlocks l).headD [])).toList ++
        (sseBlocks l).tail.filterMap sseBlockEvent := by
  cases hl : sseBlocks l with
  | nil => exact absurd hl (sseBlocks_ne_nil l)
  | cons b bs =>
      rw [List.filterMap_cons, List.headD_cons, List.tail_cons]
      cases h : sseBlockEvent b <;> simp [h]

/-- Folding an empty block flushes the carried fragments. -/
lemma toList_sseBlockEventFrom_nil (name : String) (acc : List String) :
    (sseBlockEventFrom name acc []).toList = sseFlush name acc := by
  by_cases h : acc.isEmpty <;> simp [sseBlockEventFrom, sseFlush, h]

/-- Folding one more leading line of a block is one `sseBlockStep`. -/
lemma sseBlockEventFrom_cons (name : String) (acc : List String)
    (line : String) (block : List String) :
    sseBlockEventFrom name acc (line :: block) =
      sseBlockEventFrom (sseBlockStep (name, acc) line).1
        (sseBlockStep (name, acc) line).2 block := by
  simp [sseBlockEventFrom, List.foldl_cons]

lemma specFrom_nil (name : String) (acc : List String) :
    specFrom name acc [] = sseFlush name acc := by
  simp only [specFrom, List.map_nil, sseBlocks, List.headD_cons, List.tail_cons,
    List.filterMap_nil, List.append_nil]
  exact toList_sseBlockEventFrom_nil name acc

lemma specFrom_blank (name : String) (acc : List String) (raw : String)
    (rest : List String) (h : pyRstripCrLf raw = "") :
    specFrom name acc (raw :: rest) =
      sseFlush name acc ++ specFrom "message" [] rest := by
  have hb : sseBlocks ((raw :: rest).map pyRstripCrLf) =
      [] :: sseBlocks (rest.map pyRstripCrLf) := by
    simp [sseBlocks, h]
  unfold specFrom
  rw [hb, List.headD_cons, List.tail_cons, toList_sseBlockEventFrom_nil,
    filterMap_sseBlocks]
  rfl

lemma specFrom_line (name : String) (acc : List String) (raw : String)
    (rest : List String) (h : ¬ pyRstripCrLf raw = "") :
    specFrom name acc (raw :: rest) =
      specFrom (sseBlockStep (name, acc) (pyRstripCrLf raw)).1
        (sseBlockStep (name, acc) (pyRstripCrLf raw)).2 rest := by
  have hb : sseBlocks ((raw :: rest).map pyRstripCrLf) =
      (pyRstripCrLf raw :: (sseBlocks (rest.map pyRstripCrLf)).headD []) ::
        (sseBlocks (rest.map pyRstripCrLf)).tail := by
    simp [sseBlocks, h]
  unfold specFrom
  rw [hb, List.headD_cons, List.tail_cons, sseBlockEventFrom_cons]

/-- The parser's loop, started from any carried (name, fragments) state,
produces the head block's event under that starting state followed by the
spec's events of the remaining blocks. -/
lemma iterSseGo_spec (lines : List String) : ∀ (name : String) (acc : List String),
    iterSseGo name acc lines = specFrom name acc lines := by
  induction lines with
  | nil =>
      intro name acc
      rw [specFrom_nil]
      rfl
  | cons raw rest ih =>
      intro name acc
      by_cases hblank : pyRstripCrLf raw = ""
      · have hl : iterSseGo name acc (raw :: rest) =
            sseFlush name acc ++ iterSseGo "message" [] rest := by
          simp only [iterSseGo]
          rw [if_pos hblank]
        rw [hl, ih "message" [], specFrom_blank name acc raw rest hblank]
      · rw [specFrom_line name acc raw rest hblank]
        by_cases hc : strStartsWith (pyRstripCrLf raw) ":" = true
        · have hl : iterSseGo name acc (raw :: rest) = iterSseGo name acc rest := by
            simp only [iterSseGo]
            rw [if_neg hblank, if_pos hc]
          have hstep : sseBlockStep (name, acc) (pyRstripCrLf raw) = (name, acc) := by
            simp [sseBlockStep, hc]
          rw [hl, hstep, ih name acc]
        · by_cases hev : strStartsWith (pyRstripCrLf raw) "event:" = true
          · have hl : iterSseGo name acc (raw :: rest) =
                iterSseGo
                  (if pyStrip (strDrop (pyRstripCrLf raw) 6) = "" then "message"
                   else pyStrip (strDrop (pyRstripCrLf raw) 6)) acc rest := by
              simp only [iterSseGo]
              rw [if_neg hblank, if_neg (by simp [hc]), if_pos hev]
            have hstep : sseBlockStep (name, acc) (pyRstripCrLf raw) =
                (if pyStrip (strDrop (pyRstripCrLf raw) 6) = "" then "message"
                 else pyStrip (strDrop (pyRstripCrLf raw) 6), acc) := by
              simp only [sseBlockStep]
              rw [if_neg (by simp [hc]), if_pos hev]
            rw [hl, hstep, ih]
          · by_cases hd : strStartsWith (pyRstripCrLf raw) "data:" = true
            · have hl : iterSseGo name acc (raw :: rest) =
                  iterSseGo name (acc ++ [pyLstrip (strDrop (pyRstripCrLf raw) 5)])
                    rest := by
                simp only [iterSseGo]
                rw [if_neg hblank, if_neg (by simp [hc]), if_neg (by simp [hev]),
                  if_pos hd]
              have hstep : sseBlockStep (name, acc) (pyRstripCrLf raw) =
                  (name, acc ++ [pyLstrip (strDrop (pyRstripCrLf raw) 5)]) := by
                simp only [sseBlockStep]
                rw [if_neg (by simp [hc]), if_neg (by simp [hev]), if_pos hd]
              rw [hl, hstep, ih]
            · have hl : iterSseGo name acc (raw :: rest) =
                  iterSseGo name acc rest := by
                simp only [iterSseGo]
                rw [if_neg hblank, if_neg (by simp [hc]), if_neg (by simp [hev]),
                  if_neg (by simp [hd])]
              have hstep : sseBlockStep (name, acc) (pyRstripCrLf raw) =
                  (name, acc) := by
                simp only [sseBlockStep]
                rw [if_neg (by simp [hc]), if_neg (by simp [hev]),
                  if_neg (by simp [hd])]
              rw [hl, hstep, ih]

/-- C5: the event-stream parser yields exactly the events described by
the claim — one `StreamEvent` per blank-line-delimited block that
accumulated at least one data fragment, payload the data-line remainders
joined by `"\n"`, plus the final flush at end of stream; comment lines,
`event:` naming (with empty-name default), `data:` accumulation and the
ignoring of any other non-empty line are all captured by the per-block
fold `sseBlockStep`. -/
theorem sse_parser_refines_spec (lines : List String) :
    iter_sse_events lines = sseEventsSpec lines := by
  unfold iter_sse_events sseEventsSpec
  rw [iterSseGo_spec lines "message" [], filterMap_sseBlocks]
  rfl

/-- C6: a send on the event-stream transport suspends until the stream
has opened; once open, with the endpoint not yet resolved, the endpoint
wait is bounded by the 2-second timeout constant, and when no `endpoint`
event arrives within it (`arrival = none`) the endpoint defaults to the
base URL itself and the POST proceeds against the base URL. -/
theorem sse_send_endpoint_default (st : SseState) (postStatus : Int)
    (postBody : String)
    (hclosed : st.closed = false) (hstart : st.started = true)
    (hsess : st.sessionOpen = true) (hep : st.endpointReady = false)
    (hbase : st.baseUrl ≠ "")
    (hok : 200 ≤ postStatus ∧ postStatus < 300) :
    endpoint_wait_timeout_s = 2 ∧
    (∀ arrival : Option String,
      (sse_send { st with started := false } arrival postStatus postBody).1 =
        .awaitingStart) ∧
    (sse_send st none postStatus postBody).1 = .posted st.baseUrl ∧
    (sse_send st none postStatus postBody).2.endpoint = some st.baseUrl ∧
    (sse_send st none postStatus postBody).2.endpointReady = true := by
  have h1 : ¬ postStatus < 200 := by omega
  have h2 : ¬ 300 ≤ postStatus := by omega
  refine ⟨rfl, ?_, ?_, ?_, ?_⟩
  · intro arrival
    simp [sse_send, hclosed]
  · simp [sse_send, sse_ensure_endpoint, hclosed, hstart, hsess, hep, hbase, h1, h2]
  · simp [sse_send, sse_ensure_endpoint, hclosed, hstart, hsess, hep, hbase, h1, h2]
  · simp [sse_send, sse_ensure_endpoint, hclosed, hstart, hsess, hep, hbase, h1, h2]

/-- C6 witness: at the concrete started transport, a send whose endpoint
wait times out posts to the base URL. -/
theorem sse_send_endpoint_default_witness :
    (sse_send sseExample none 200 "").1 = .posted "http://h/sse" ∧
    endpoint_wait_timeout_s = 2 :=
  have h := sse_send_endpoint_default sseExample 200 "" rfl rfl rfl rfl
    (by decide) (by omega)
  ⟨h.2.2.1, h.1⟩

/-- C7: `_set_endpoint` resolves the event payload against the base URL
and stores the resolved URL (marking the endpoint resolved) exactly when
the resolved URL's scheme and network location equal the base URL's; on
any mismatch it raises the fatal `Endpoint origin mismatch` error and
stores nothing. -/
theorem sse_set_endpoint_origin (st : SseState) (value : String) :
    ((urlparse st.baseUrl).scheme = (urlparse (urljoin st.baseUrl value)).scheme ∧
     (urlparse st.baseUrl).netloc = (urlparse (urljoin st.baseUrl value)).netloc →
       sse_set_endpoint st value =
         .ok { st with endpoint := some (urljoin st.baseUrl value),
                       endpointReady := true }) ∧
    (¬ ((urlparse st.baseUrl).scheme = (urlparse (urljoin st.baseUrl value)).scheme ∧
        (urlparse st.baseUrl).netloc = (urlparse (urljoin st.baseUrl value)).netloc) →
       sse_set_endpoint st value =
         .error ("Endpoint origin mismatch: " ++ urljoin st.baseUrl value)) := by
  constructor
  · rintro ⟨h1, h2⟩
    simp [sse_set_endpoint, h1, h2]
  · intro h
    rw [not_and_or] at h
    rcases h with h | h <;> simp [sse_set_endpoint, h]

/-- C7 witness: a relative `/messages` payload on base `http://h/sse`
resolves on the same origin and is stored; an absolute payload on a
different origin is rejected with the mismatch error (shown through the
contrapositive branch at a second concrete input). -/
theorem sse_set_endpoint_origin_witness :
    sse_set_endpoint sseExample "/messages" =
      .ok { sseExample with endpoint := some "http://h/messages",
                            endpointReady := true } ∧
    sse_set_endpoint sseExample "https://evil/x" =
      .error "Endpoint origin mismatch: https://evil/x" :=
  ⟨(sse_set_endpoint_origin sseExample "/messages").1 (by decide),
   (sse_set_endpoint_origin sseExample "https://evil/x").2 (by decide)⟩

/-- The retry loop performs at most `remaining` further POST attempts. -/
lemma httpSendGo_postCount (o : Nat → AttemptOutcome) (closedAt : Nat → Bool) :
    ∀ (remaining i : Nat) (last : Option PyExc) (evs : List HttpEvent),
      (httpSendGo o closedAt i remaining last evs).events.countP isPostEv ≤
        evs.countP isPostEv + remaining := by
  intro remaining
  induction remaining with
  | zero =>
      intro i last evs
      cases last <;> simp [httpSendGo, httpSendFinish]
  | succ r ih =>
      intro i last evs
      simp only [httpSendGo]
      cases ho : o i with
      | success =>
          simp [List.countP_append, List.countP_cons, isPostEv]
      | fatal e =>
          simp [httpSendFinish, List.countP_append, List.countP_cons, isPostEv]
      | retryable e =>
          by_cases hcl : closedAt i = true
          · simp [hcl, httpSendFinish, List.countP_append, List.countP_cons, isPostEv]
          · simp only [hcl, Bool.false_eq_true, if_false]
            by_cases hi : i < MAX_RETRIES - 1
            · simp only [hi, if_true]
              refine le_trans (ih (i + 1) (some e) _) ?_
              simp [List.countP_append, List.countP_cons, isPostEv]
              omega
            · simp only [hi, if_false]
              refine le_trans (ih (i + 1) (some e) _) ?_
              simp [List.countP_append, List.countP_cons, isPostEv]
              omega

/-- C8: at most 3 POST attempts per send (`MAX_RETRIES = 3`, base delay
1s); after a retryable failure on attempt `i` with attempts remaining the
loop sleeps `1.0 * 2 ^ i` seconds and discards/recreates the connection
pool before the next attempt; when all three attempts fail retryably the
last error goes to the error callback and is raised; a non-retryable
failure is reported to the error callback and raised at once with no
further attempts, wherever it occurs. -/
theorem http_send_retry_policy (o : Nat → AttemptOutcome) :
    MAX_RETRIES = 3 ∧ RETRY_DELAY_BASE = 1 ∧
    (∀ closedAt : Nat → Bool,
      (http_send false true o closedAt).events.countP isPostEv ≤ MAX_RETRIES) ∧
    (∀ e0 e1 e2, o 0 = .retryable e0 → o 1 = .retryable e1 → o 2 = .retryable e2 →
      http_send false true o (fun _ => false) =
        ⟨.err e2,
         [.post 0, .sleep (RETRY_DELAY_BASE * 2 ^ 0), .recreatePool,
          .post 1, .sleep (RETRY_DELAY_BASE * 2 ^ 1), .recreatePool,
          .post 2], some e2⟩) ∧
    (∀ e, o 0 = .fatal e →
      http_send false true o (fun _ => false) = ⟨.err e, [.post 0], some e⟩) ∧
    (∀ e0 e, o 0 = .retryable e0 → o 1 = .fatal e →
      http_send false true o (fun _ => false) =
        ⟨.err e,
         [.post 0, .sleep (RETRY_DELAY_BASE * 2 ^ 0), .recreatePool, .post 1],
         some e⟩) ∧
    (∀ e0 e1 e, o 0 = .retryable e0 → o 1 = .retryable e1 → o 2 = .fatal e →
      http_send false true o (fun _ => false) =
        ⟨.err e,
         [.post 0, .sleep (RETRY_DELAY_BASE * 2 ^ 0), .recreatePool,
          .post 1, .sleep (RETRY_DELAY_BASE * 2 ^ 1), .recreatePool,
          .post 2], some e⟩) := by
  refine ⟨rfl, rfl, ?_, ?_, ?_, ?_, ?_⟩
  · intro closedAt
    have h := httpSendGo_postCount o closedAt MAX_RETRIES 0 none []
    simpa [http_send] using h
  · intro e0 e1 e2 h0 h1 h2
    simp [http_send, httpSendGo, h0, h1, h2, httpSendFinish, MAX_RETRIES]
  · intro e h0
    simp [http_send, httpSendGo, h0, httpSendFinish, MAX_RETRIES]
  · intro e0 e h0 h1
    simp [http_send, httpSendGo, h0, h1, httpSendFinish, MAX_RETRIES]
  · intro e0 e1 e h0 h1 h2
    simp [http_send, httpSendGo, h0, h1, h2, httpSendFinish, MAX_RETRIES]

/-- C8 witness: with every attempt failing retryably, the send makes
exactly three attempts with backoffs 1s and 2s and raises the last
error through the error callback. -/
theorem http_send_retry_policy_witness :
    http_send false true oAllRetry (fun _ => false) =
      ⟨.err (.other "Connection reset by peer"),
       [.post 0, .sleep (RETRY_DELAY_BASE * 2 ^ 0), .recreatePool,
        .post 1, .sleep (RETRY_DELAY_BASE * 2 ^ 1), .recreatePool,
        .post 2], some (.other "Connection reset by peer")⟩ :=
  (http_send_retry_policy oAllRetry).2.2.2.1
    (.other "Connection reset by peer") (.other "Connection reset by peer")
    (.other "Connection reset by peer") rfl rfl rfl

/-- C10 (implicit): when `self._closed` is observed true at the moment a
retryable error is caught, the loop breaks at once — no backoff sleep, no
pool recreation and no further POST attempt — and that last error is
reported to the error callback and raised. -/
theorem http_send_stops_on_close (o : Nat → AttemptOutcome)
    (closedAt : Nat → Bool) :
    (∀ e, o 0 = .retryable e → closedAt 0 = true →
      http_send false true o closedAt = ⟨.err e, [.post 0], some e⟩) ∧
    (∀ e0 e1, o 0 = .retryable e0 → closedAt 0 = false →
      o 1 = .retryable e1 → closedAt 1 = true →
      http_send false true o closedAt =
        ⟨.err e1,
         [.post 0, .sleep (RETRY_DELAY_BASE * 2 ^ 0), .recreatePool, .post 1],
         some e1⟩) ∧
    (∀ e0 e1 e2, o 0 = .retryable e0 → closedAt 0 = false →
      o 1 = .retryable e1 → closedAt 1 = false →
      o 2 = .retryable e2 → closedAt 2 = true →
      http_send false true o closedAt =
        ⟨.err e2,
         [.post 0, .sleep (RETRY_DELAY_BASE * 2 ^ 0), .recreatePool,
          .post 1, .sleep (RETRY_DELAY_BASE * 2 ^ 1), .recreatePool,
          .post 2], some e2⟩) := by
  refine ⟨?_, ?_, ?_⟩
  · intro e h0 hc0
    simp [http_send, httpSendGo, h0, hc0, httpSendFinish, MAX_RETRIES]
  · intro e0 e1 h0 hc0 h1 hc1
    simp [http_send, httpSendGo, h0, hc0, h1, hc1, httpSendFinish, MAX_RETRIES]
  · intro e0 e1 e2 h0 hc0 h1 hc1 h2 hc2
    simp [http_send, httpSendGo, h0, hc0, h1, hc1, h2, hc2, httpSendFinish,
      MAX_RETRIES]

/-- C10 witness: a close observed at the first retryable failure stops
the send after one attempt, with no sleep and no recreation. -/
theorem http_send_stops_on_close_witness :
    http_send false true oAllRetry (fun _ => true) =
      ⟨.err (.other "Connection reset by peer"), [.post 0],
       some (.other "Connection reset by peer")⟩ :=
  (http_send_stops_on_close oAllRetry (fun _ => true)).1
    (.other "Connection reset by peer") rfl rfl

/-- A closed streaming-request transport's `close()` is a no-op. -/
lemma http_close_of_closed (st : HttpState) (h : st.closed = true) :
    http_close st = (st, 0) := by
  simp [http_close, h]

/-- Closing leaves the transport closed. -/
lemma http_close_closed (st : HttpState) : (http_close st).1.closed = true := by
  unfold http_close
  by_cases h : st.closed = true
  · simp [h]
  · simp only [Bool.not_eq_true] at h
    simp only [h, Bool.false_eq_true, if_false]
    by_cases hcb : st.hasOnclose && !st.oncloseCalled
    · simp [hcb]
    · simp [hcb]

/-- Repeated `close()` on an already-closed transport never calls back. -/
lemma httpCloseN_of_closed (st : HttpState) (h : st.closed = true) :
    ∀ n, httpCloseN st n = (st, 0) := by
  intro n
  induction n with
  | zero => rfl
  | succ n ih => simp [httpCloseN, http_close_of_closed st h, ih]

/-- A closed event-stream transport's `close()` is a no-op. -/
lemma sse_close_of_closed (st : SseState) (h : st.closed = true) :
    sse_close st = (st, 0) := by
  simp [sse_close, h]

/-- Closing leaves the transport closed. -/
lemma sse_close_closed (st : SseState) : (sse_close st).1.closed = true := by
  unfold sse_close
  by_cases h : st.closed = true
  · simp [h]
  · simp only [Bool.not_eq_true] at h
    simp only [h, Bool.false_eq_true, if_false]
    by_cases hcb : st.hasOnclose && !st.oncloseCalled
    · simp [hcb]
    · simp [hcb]

/-- Repeated `close()` on an already-closed transport never calls back. -/
lemma sseCloseN_of_closed (st : SseState) (h : st.closed = true) :
    ∀ n, sseCloseN st n = (st, 0) := by
  intro n
  induction n with
  | zero => rfl
  | succ n ih => simp [sseCloseN, sse_close_of_closed st h, ih]

/-- C9, counterexample: not every operation attempted after close fails —
`StreamableHttpRemoteTransport.start()` invoked on a closed transport
(whose `close()` left `_session = None` and `_closed_event` set) passes
the already-started guard, opens a fresh session, and completes normally
instead of failing. Only `send` carries an explicit closed check. -/
theorem c9_counterexample :
    httpExampleClosed.closed = true ∧
    (http_start httpExampleClosed).1 = .completed := by
  constructor <;> rfl

/-- C9 (amended): for both wire transports `close` is idempotent — a
second `close()` returns the same state and performs no callback, any
number of repeated closes invokes the close callback at most once in
total, and the first close tears down the underlying connection state —
and a *send* attempted after close has been requested fails immediately
and explicitly with `Transport is closed` (before any POST attempt and
without invoking the error callback); `start` after close, by contrast,
completes without failing (see the counterexample). -/
theorem transport_close_idempotent_send_fails_after_close :
    (∀ st : HttpState, http_close (http_close st).1 = ((http_close st).1, 0)) ∧
    (∀ (st : HttpState) (n : Nat), (httpCloseN st n).2 ≤ 1) ∧
    (∀ st : HttpState, st.closed = false → (http_close st).1.sessionOpen = false) ∧
    (∀ st : SseState, sse_close (sse_close st).1 = ((sse_close st).1, 0)) ∧
    (∀ (st : SseState) (n : Nat), (sseCloseN st n).2 ≤ 1) ∧
    (∀ st : SseState, st.closed = false →
      (sse_close st).1.respOpen = false ∧ (sse_close st).1.sessionOpen = false) ∧
    (∀ (started : Bool) (o : Nat → AttemptOutcome) (closedAt : Nat → Bool),
      http_send true started o closedAt =
        ⟨.err (.other "Transport is closed"), [], none⟩) ∧
    (∀ (st : SseState) (arrival : Option String) (postStatus : Int)
        (postBody : String), st.closed = true →
      (sse_send st arrival postStatus postBody).1 = .failed "Transport is closed") := by
  refine ⟨?_, ?_, ?_, ?_, ?_, ?_, ?_, ?_⟩
  · intro st
    exact http_close_of_closed _ (http_close_closed st)
  · intro st n
    cases n with
    | zero => simp [httpCloseN]
    | succ n =>
        have hclosed := http_close_closed st
        have hrest := httpCloseN_of_closed (http_close st).1 hclosed n
        have hk : (http_close st).2 ≤ 1 := by
          unfold http_close
          by_cases h : st.closed = true
          · simp [h]
          · simp only [Bool.not_eq_true] at h
            simp only [h, Bool.false_eq_true, if_false]
            by_cases hcb : st.hasOnclose && !st.oncloseCalled
            · simp [hcb]
            · simp [hcb]
        simp [httpCloseN, hrest]
        omega
  · intro st h
    unfold http_close
    simp only [h, Bool.false_eq_true, if_false]
    by_cases hcb : st.hasOnclose && !st.oncloseCalled
    · simp [hcb]
    · simp [hcb]
  · intro st
    exact sse_close_of_closed _ (sse_close_closed st)
  · intro st n
    cases n with
    | zero => simp [sseCloseN]
    | succ n =>
        have hclosed := sse_close_closed st
        have hrest := sseCloseN_of_closed (sse_close st).1 hclosed n
        have hk : (sse_close st).2 ≤ 1 := by
          unfold sse_close
          by_cases h : st.closed = true
          · simp [h]
          · simp only [Bool.not_eq_true] at h
            simp only [h, Bool.false_eq_true, if_false]
            by_cases hcb : st.hasOnclose && !st.oncloseCalled
            · simp [hcb]
            · simp [hcb]
        simp [sseCloseN, hrest]
        omega
  · intro st h
    unfold sse_close
    simp only [h, Bool.false_eq_true, if_false]
    by_cases hcb : st.hasOnclose && !st.oncloseCalled
    · simp [hcb]
    · simp [hcb]
  · intro started o closedAt
    rfl
  · intro st arrival postStatus postBody h
    simp [sse_send, h]

/-- C9 witness: on the concrete started transport, closing twice keeps
the state of the first close with no second callback, at most one
callback fires over three closes, and a send after close fails with the
explicit error. -/
theorem transport_close_idempotent_witness :
    http_close httpExampleClosed = (httpExampleClosed, 0) ∧
    (httpCloseN httpExample 3).2 ≤ 1 ∧
    (sse_send { sseExample with closed := true } none 200 "").1 =
      .failed "Transport is closed" :=
  have h := transport_close_idempotent_send_fails_after_close
  ⟨h.1 httpExample, h.2.1 httpExample 3,
   h.2.2.2.2.2.2.2 { sseExample with closed := true } none 200 "" rfl⟩

/-- C1: with the proxy not closing and the active transport's send
failing, when the failure is fallback-eligible under a `-first` strategy
(and the freshly constructed other transport starts ready,
`switchStartRes = none`) the selector performs exactly one switch to the
other kind and retries the same message exactly once on the new
transport, a failure of that retry propagating with no further switch;
when fallback is not permitted (`-only` strategies, for which
`can_fallback` is false) or the failure is not fallback-eligible, the
original failure propagates with no switch and no retry. -/
theorem selector_send_fallback (st : SelSt) (msg : Json)
    (sendRes : Kind → Option PyExc) (e : PyExc)
    (hclosed : st.closed = false)
    (hfail : sendRes st.activeKind = some e) :
    ((can_fallback st.strategy && should_fallback e) = true →
      (selector_send st msg sendRes none).switches = 1 ∧
      (selector_send st msg sendRes none).sent =
        [(st.activeKind, msg), (other_kind st.activeKind, msg)] ∧
      (selector_send st msg sendRes none).finalKind = other_kind st.activeKind ∧
      (selector_send st msg sendRes none).outcome =
        (match sendRes (other_kind st.activeKind) with
         | none => .ok
         | some e2 => .err e2)) ∧
    ((can_fallback st.strategy && should_fallback e) = false →
      ∀ switchStartRes : Option PyExc,
        (selector_send st msg sendRes switchStartRes).switches = 0 ∧
        (selector_send st msg sendRes switchStartRes).sent = [(st.activeKind, msg)] ∧
        (selector_send st msg sendRes switchStartRes).outcome = .err e) ∧
    (can_fallback .sseOnly = false ∧ can_fallback .httpOnly = false ∧
     can_fallback .sseFirst = true ∧ can_fallback .httpFirst = true) := by
  refine ⟨?_, ?_, can_fallback_values⟩
  · intro hfb
    have hne := other_kind_ne st.activeKind
    simp only [selector_send, hclosed, Bool.false_eq_true, if_false, hfail, hfb,
      if_true, switch_to, hne]
    cases h2 : sendRes (other_kind st.activeKind) <;>
      simp [h2]
  · intro hfb switchStartRes
    simp [selector_send, hclosed, hfail, hfb]

/-- C1 witness: under `http-first` with the request transport failing on
a 404 response error and the event-stream transport accepting the retry,
the selector switches once, retries the same message once on the
event-stream transport, and succeeds. -/
theorem selector_send_fallback_witness :
    (selector_send ⟨false, .httpFirst, .http⟩ .null selRes404 none).switches = 1 ∧
    (selector_send ⟨false, .httpFirst, .http⟩ .null selRes404 none).sent =
      [(.http, .null), (.sse, .null)] ∧
    (selector_send ⟨false, .httpFirst, .http⟩ .null selRes404 none).finalKind = .sse ∧
    (selector_send ⟨false, .httpFirst, .http⟩ .null selRes404 none).outcome = .ok :=
  selector_send_fallback ⟨false, .httpFirst, .http⟩ .null selRes404
    (.clientResponseError 404 "404, message='Not Found'") rfl rfl
    |>.1 (by decide)

end McpRemote
